import Mathlib

/-!
Verification of the text-extraction adapter (`src/text_extraction.py`).

The adapter forwards a document (bytes or URL) to a remote document-analysis
service and flattens the hierarchical response into a flat result dictionary.
We give a shallow embedding: Python dictionary values become the inductive
type `Value`; the remote service (client construction, `begin_analyze_document`
/ `begin_analyze_document_from_url` and the blocking `poller.result()`) becomes
an oracle `ServiceCall → Except String AnalyzeResult`, where `Except.error m`
models an exception whose `str` rendering is `m`; the side effect of invoking
the service is made explicit by returning the list of service calls performed
alongside the result dictionary.
-/

/-- A Python value, as far as this adapter manipulates them: `None`, strings,
non-negative integers, byte blobs, lists and string-keyed dictionaries. -/
inductive Value where
  | none
  | str (s : String)
  | nat (n : Nat)
  | bytes (b : List Nat)
  | list (xs : List Value)
  | dict (kvs : List (String × Value))
deriving Repr

/-- Python truthiness (`bool(v)`) for the values above: `None`, empty strings,
zero, and empty collections are falsy. -/
def pyTruthy : Value → Bool
  | Value.none => false
  | Value.str s => !s.isEmpty
  | Value.nat n => n != 0
  | Value.bytes b => !b.isEmpty
  | Value.list xs => !xs.isEmpty
  | Value.dict kvs => !kvs.isEmpty

/-- Lookup of a key in a dictionary value (`d[k]` / `d.get(k)`); `Option.none`
when the value is not a dictionary or the key is absent. -/
def dictGet (v : Value) (k : String) : Option Value :=
  match v with
  | Value.dict kvs => kvs.lookup k
  | _ => Option.none

/-- The `settings` object from `.config`: the two credentials (arbitrary
configured values, tested for truthiness by the code) and the fixed prebuilt
model identifier. -/
structure Settings where
  AZURE_FORMRECOGNIZER_ENDPOINT : Value
  AZURE_FORMRECOGNIZER_KEY : Value
  PREBUILT_MODEL : String

/-- A line of recognized text on a page (`line.content`). -/
structure Line where
  content : String
deriving Repr

/-- A page of the service result (`page.lines`, in service order). -/
structure Page where
  lines : List Line
deriving Repr

/-- A table cell (`cell.row_index`, `cell.column_index`, `cell.content`). -/
structure TableCell where
  row_index : Nat
  column_index : Nat
  content : String
deriving Repr

/-- A table of the service result (`table.cells`, in service order). -/
structure Table where
  cells : List TableCell
deriving Repr

/-- The hierarchical result of the remote analysis (`result.pages`,
`result.tables`). -/
structure AnalyzeResult where
  pages : List Page
  tables : List Table
deriving Repr

/-- One invocation of the remote service: either
`begin_analyze_document(model_id, document)` on raw bytes, or
`begin_analyze_document_from_url(model_id, document_url)`. -/
inductive ServiceCall where
  | fromBytes (document : Value) (model_id : String)
  | fromUrl (document_url : Value) (model_id : String)
deriving Repr

/-- The remote service oracle: given a call, either the completed analysis
result or the message of the exception raised anywhere between submitting the
job and `poller.result()` returning. -/
def Service : Type := ServiceCall → Except String AnalyzeResult

/-- Input dispatch of `process` (lines 35-49): membership test
`'file_bytes' in input_data` first, then `'file_url' in input_data`, each
selecting the corresponding service call with the looked-up value and the
fixed model identifier; `Option.none` when neither key is present. -/
def resolveCall (model_id : String) (input_data : List (String × Value)) :
    Option ServiceCall :=
  match input_data.lookup "file_bytes" with
  | some file_bytes => some (ServiceCall.fromBytes file_bytes model_id)
  | Option.none =>
    match input_data.lookup "file_url" with
    | some u => some (ServiceCall.fromUrl u model_id)
    | Option.none => Option.none

/-- Text flattening of `process` (lines 54-58): `extracted_text` accumulated
over `enumerate(result.pages, start=1)`, appending the page marker line and
then each line's content followed by a newline. -/
def flattenText (pages : List Page) : String :=
  (List.enumFrom 1 pages).foldl
    (fun extracted_text pn =>
      pn.2.lines.foldl (fun acc line => acc ++ line.content ++ "\n")
        (extracted_text ++ "page number " ++ toString pn.1 ++ "\n"))
    ""

/-- The per-cell record appended in `process` (lines 64-69). -/
def cellRecord (cell : TableCell) : Value :=
  Value.dict [("row", Value.nat cell.row_index),
    ("column", Value.nat cell.column_index),
    ("content", Value.str cell.content)]

/-- Table flattening of `process` (lines 61-70): the `tables` list, one flat
cell-record list per table, in service order. -/
def tablesData (tables : List Table) : List Value :=
  tables.map (fun table => Value.list (table.cells.map cellRecord))

/-- The failure dictionary built by the `except` clause of `process`
(lines 81-85). -/
def errorResult (e : String) : Value :=
  Value.dict [("error", Value.str e), ("result", Value.none)]

/-- `process` (lines 12-85): credential check, input dispatch, remote
invocation, response flattening, with every exception caught at the top level
and converted into `errorResult`. Returns the result dictionary together with
the list of service calls performed. -/
def process (settings : Settings) (svc : Service)
    (input_data : List (String × Value)) : Value × List ServiceCall :=
  if pyTruthy settings.AZURE_FORMRECOGNIZER_ENDPOINT &&
      pyTruthy settings.AZURE_FORMRECOGNIZER_KEY then
    match resolveCall settings.PREBUILT_MODEL input_data with
    | some call =>
      match svc call with
      | Except.ok result =>
        let tables := tablesData result.tables
        (Value.dict [("result", Value.str (flattenText result.pages)),
          ("metadata", Value.dict [
            ("pages", Value.nat result.pages.length),
            ("tables", Value.nat tables.length),
            ("tables_data", Value.list tables),
            ("model", Value.str settings.PREBUILT_MODEL)])],
         [call])
      | Except.error e => (errorResult e, [call])
    | Option.none =>
      (errorResult "Either 'file_bytes' or 'file_url' must be provided", [])
  else
    (errorResult "Azure Form Recognizer credentials not configured", [])

/-- Spec-side flattening of a page's lines: every line on its own row,
`line ++ "\n"` for each, in order. Stated from the specification's words to be
compared with the accumulator-based `flattenText` of the code. -/
def specLines : List String → String
  | [] => ""
  | l :: rest => l ++ "\n" ++ specLines rest

/-- Spec-side text construction: iterate pages 1-indexed, for each page emit
the literal line `page number N` followed by every line of that page, and
concatenate in document order. Stated from the specification's words. -/
def specText : Nat → List (List String) → String
  | _, [] => ""
  | n, ls :: rest =>
    "page number " ++ toString n ++ "\n" ++ specLines ls ++ specText (n + 1) rest

/-- `get_input_schema` (lines 88-103). Modeled as a function of `Unit` so
that one call is one application. -/
def get_input_schema (_ : Unit) : Value :=
  Value.dict [
    ("type", Value.str "object"),
    ("properties", Value.dict [
      ("file_bytes", Value.dict [
        ("type", Value.str "string"),
        ("description", Value.str "Base64 encoded file bytes or binary data")]),
      ("file_url", Value.dict [
        ("type", Value.str "string"),
        ("description", Value.str "URL to the document to extract")])]),
    ("required", Value.list [Value.str "file_bytes"])]

/-- `get_output_schema` (lines 106-120). -/
def get_output_schema (_ : Unit) : Value :=
  Value.dict [
    ("type", Value.str "object"),
    ("properties", Value.dict [
      ("result", Value.dict [
        ("type", Value.str "string"),
        ("description", Value.str "Extracted text content")]),
      ("metadata", Value.dict [
        ("type", Value.str "object"),
        ("description",
         Value.str "Extraction metadata including pages and tables")])])]

/-- The long-form description string of `get_metadata` (lines 128-142). -/
def agentDescription : String :=
  "The Text Extraction Agent uses Azure Document Intelligence (formerly Form Recognizer) to extract text, tables, and structured data from various document types. It provides high-accuracy text extraction from PDFs, images, and scanned documents, making it an essential first step in document processing workflows.\n\n" ++
  "The agent processes documents using Azure Document Intelligence's prebuilt model to extract text content while preserving document structure and layout. It handles two input types: file_bytes (base64 encoded file bytes or binary data provided directly) and file_url (URL to the document stored remotely). The agent uses the DocumentAnalysisClient to begin document analysis and processes the results to extract comprehensive information.\n\n" ++
  "The agent extracts text content with page markers, adding \"page number X\" markers for each page to maintain document structure. It processes all lines on each page, preserving the original document layout. For tables, the agent detects and extracts table data with complete cell information including row_index, column_index, and cell content, allowing for full table reconstruction.\n\n" ++
  "The agent returns comprehensive results including result (extracted text with page markers), and metadata object containing pages (number of pages processed), tables (number of tables detected), tables_data (array of table objects with row, column, and content for each cell), and model (the prebuilt model used for extraction).\n\n" ++
  "Key capabilities include PDF text extraction with high accuracy, table detection and extraction with cell-level detail, multi-page document processing with page markers, layout analysis and structure preservation, form field extraction, key-value pair extraction, document classification, language detection, and metadata extraction (pages, tables, model information).\n\n" ++
  "This agent is ideal for document digitization and OCR, invoice and receipt processing, form data extraction, medical record digitization, legal document processing, financial document analysis, identity document verification, and contract and agreement processing. It serves as the foundation for all document-based workflows, extracting raw text that can then be processed by specialized agents.\n\n" ++
  "The agent requires either file_bytes (base64 encoded file bytes or binary data) or file_url (URL to the document). It works with PDF files (primary format), image files (JPG, PNG) for OCR, and scanned documents. The agent works best with clear, high-quality documents and provides high accuracy for printed text.\n\n" ++
  "Technical implementation uses Azure Document Intelligence API with the prebuilt model. The agent uses DocumentAnalysisClient with AzureKeyCredential for authentication. It supports both direct file bytes and remote file URLs, provides high-accuracy OCR capabilities, preserves document structure and layout with page markers, and extracts tables with complete cell-level formatting. The agent includes error handling for missing credentials and invalid input types. Cost: Based on Azure Document Intelligence pricing ($0.001 per page)."

/-- `get_metadata` (lines 123-147). -/
def get_metadata (_ : Unit) : Value :=
  Value.dict [
    ("id", Value.str "text_extraction"),
    ("name", Value.str "Text Extraction Agent"),
    ("description", Value.str agentDescription),
    ("cost", Value.str "$0.001 per page"),
    ("api_endpoint", Value.str "/agents/text_extraction/run"),
    ("category", Value.str "document_processing"),
    ("agent_type", Value.str "generalized")]

/-- The success shape of the returned dictionary: a `result` string and a
`metadata` entry, nothing else. -/
def isSuccessShape (v : Value) : Prop :=
  ∃ r m, v = Value.dict [("result", Value.str r), ("metadata", m)]

/-- The failure shape of the returned dictionary: an `error` string and
`result` set to `None`, nothing else. -/
def isFailureShape (v : Value) : Prop :=
  ∃ e, v = errorResult e

/-- Folding a page's lines onto an accumulator appends exactly the spec-side
rendering of those lines. -/
theorem foldl_lines_eq (lines : List Line) (a : String) :
    lines.foldl (fun acc line => acc ++ line.content ++ "\n") a
      = a ++ specLines (lines.map Line.content) := by
  induction lines generalizing a with
  | nil => simp [specLines]
  | cons l rest ih =>
    rw [List.foldl_cons, ih]
    simp [specLines, String.append_assoc]

/-- Folding the enumerated pages onto an accumulator appends exactly the
spec-side text starting at that page number. -/
theorem foldl_pages_eq (pages : List Page) (n : Nat) (a : String) :
    ((List.enumFrom n pages).foldl
      (fun extracted_text pn =>
        pn.2.lines.foldl (fun acc line => acc ++ line.content ++ "\n")
          (extracted_text ++ "page number " ++ toString pn.1 ++ "\n")) a)
      = a ++ specText n (pages.map fun p => p.lines.map Line.content) := by
  induction pages generalizing n a with
  | nil => simp [specText, List.enumFrom]
  | cons p rest ih =>
    simp only [List.enumFrom, List.foldl_cons]
    rw [foldl_lines_eq, ih]
    simp [specText, specLines, String.append_assoc]

/-- The code's accumulator-based flattening agrees with the spec-side
1-indexed page-by-page rendering. -/
theorem flattenText_eq_specText (pages : List Page) :
    flattenText pages
      = specText 1 (pages.map fun p => p.lines.map Line.content) := by
  simpa [flattenText] using foldl_pages_eq pages 1 ""

/-- Concrete stub fixtures used to instantiate the theorems below. -/
def stubSettings : Settings :=
  ⟨Value.str "https://example.cognitiveservices.azure.com/",
    Value.str "secret-key", "prebuilt-document"⟩

/-- Settings with an empty endpoint and an unset key: credentials missing. -/
def emptySettings : Settings :=
  ⟨Value.str "", Value.none, "prebuilt-document"⟩

/-- Stub service result: 2 pages with lines `["Hello","World"]` and
`["Foo"]`. -/
def twoPageResult : AnalyzeResult :=
  { pages := [⟨[⟨"Hello"⟩, ⟨"World"⟩]⟩, ⟨[⟨"Foo"⟩]⟩], tables := [] }

/-- Stub service result: one table with cells
`(0,0,"A")`, `(0,1,"B")`, `(1,0,"C")`. -/
def oneTableResult : AnalyzeResult :=
  { pages := [⟨[]⟩], tables := [⟨[⟨0, 0, "A"⟩, ⟨0, 1, "B"⟩, ⟨1, 0, "C"⟩]⟩] }

/-- A stub service that completes every call with the given result. -/
def stubOk (r : AnalyzeResult) : Service := fun _ => Except.ok r

/-- A stub service that raises an exception with the given message on every
call. -/
def stubFail (msg : String) : Service := fun _ => Except.error msg

/-- A service that must not be reached. -/
def unreachableService : Service := fun _ => Except.error "unreachable"

/-- The bytes of a minimal PDF header, as a concrete `file_bytes` payload. -/
def pdfBytes : Value := Value.bytes [37, 80, 68, 70]

/-- C1: for every input and every behaviour of the remote service (including
any exception it raises), `process` returns a dictionary of exactly one of the
two shapes: a success record with a `result` string and `metadata`, or a
failure record with an `error` string and `result` set to `None` — never both,
never neither. (Non-propagation of exceptions is the totality of `process` in
the embedding: the `try`/`except` boundary always yields a dictionary.) -/
theorem process_returns_exactly_one_shape (settings : Settings) (svc : Service)
    (input_data : List (String × Value)) :
    (isSuccessShape (process settings svc input_data).1 ∧
      ¬ isFailureShape (process settings svc input_data).1) ∨
    (isFailureShape (process settings svc input_data).1 ∧
      ¬ isSuccessShape (process settings svc input_data).1) := by
  unfold process
  split
  · cases hcall : resolveCall settings.PREBUILT_MODEL input_data with
    | none =>
      simp only [hcall]
      right
      refine ⟨⟨_, rfl⟩, ?_⟩
      rintro ⟨r, m, h⟩
      simp [errorResult] at h
    | some call =>
      simp only [hcall]
      cases hsvc : svc call with
      | ok result =>
        simp only [hsvc]
        left
        refine ⟨⟨_, _, rfl⟩, ?_⟩
        rintro ⟨e, h⟩
        simp [errorResult] at h
      | error e =>
        simp only [hsvc]
        right
        refine ⟨⟨_, rfl⟩, ?_⟩
        rintro ⟨r, m, h⟩
        simp [errorResult] at h
  · right
    refine ⟨⟨_, rfl⟩, ?_⟩
    rintro ⟨r, m, h⟩
    simp [errorResult] at h

/-- C2: on every successful call, the returned `result` text is the spec-side
rendering: pages iterated in order with 1-based numbering, each page emitting
the line `page number N` followed by each of its lines, every line terminated
by a newline. -/
theorem process_success_text (settings : Settings) (svc : Service)
    (input_data : List (String × Value)) (call : ServiceCall)
    (result : AnalyzeResult)
    (hcred : (pyTruthy settings.AZURE_FORMRECOGNIZER_ENDPOINT &&
      pyTruthy settings.AZURE_FORMRECOGNIZER_KEY) = true)
    (hcall : resolveCall settings.PREBUILT_MODEL input_data = some call)
    (hsvc : svc call = Except.ok result) :
    dictGet (process settings svc input_data).1 "result"
      = some (Value.str
          (specText 1 (result.pages.map fun p => p.lines.map Line.content))) := by
  simp [process, hcred, hcall, hsvc, dictGet, flattenText_eq_specText]

/-- C2 witness: for a stub service returning 2 pages with lines
`["Hello","World"]` and `["Foo"]`, the text equals exactly
`"page number 1\nHello\nWorld\npage number 2\nFoo\n"`. -/
theorem process_success_text_witness :
    dictGet (process stubSettings (stubOk twoPageResult)
        [("file_bytes", pdfBytes)]).1 "result"
      = some (Value.str "page number 1\nHello\nWorld\npage number 2\nFoo\n") :=
  process_success_text stubSettings (stubOk twoPageResult)
    [("file_bytes", pdfBytes)]
    (ServiceCall.fromBytes pdfBytes "prebuilt-document") twoPageResult
    rfl rfl rfl

/-- C3: on every successful call, the returned metadata contains `pages` (the
page count), `tables` (the table count), `tables_data` listing per table, in
service order, its cells in service order as row/column/content records with
no sorting or deduplication, and `model` (the fixed model identifier). -/
theorem process_success_metadata (settings : Settings) (svc : Service)
    (input_data : List (String × Value)) (call : ServiceCall)
    (result : AnalyzeResult)
    (hcred : (pyTruthy settings.AZURE_FORMRECOGNIZER_ENDPOINT &&
      pyTruthy settings.AZURE_FORMRECOGNIZER_KEY) = true)
    (hcall : resolveCall settings.PREBUILT_MODEL input_data = some call)
    (hsvc : svc call = Except.ok result) :
    dictGet (process settings svc input_data).1 "metadata"
      = some (Value.dict [
          ("pages", Value.nat result.pages.length),
          ("tables", Value.nat result.tables.length),
          ("tables_data", Value.list (result.tables.map fun table =>
            Value.list (table.cells.map fun cell => Value.dict [
              ("row", Value.nat cell.row_index),
              ("column", Value.nat cell.column_index),
              ("content", Value.str cell.content)]))),
          ("model", Value.str settings.PREBUILT_MODEL)]) := by
  simp [process, hcred, hcall, hsvc, dictGet, List.lookup, tablesData]
  intro table _ cell _
  rfl

/-- C3 witness: for a stub service returning one table with cells
`(0,0,"A")`, `(0,1,"B")`, `(1,0,"C")`, the metadata reports `tables = 1` and
`tables_data` holds exactly those three records in that order. -/
theorem process_success_metadata_witness :
    dictGet (process stubSettings (stubOk oneTableResult)
        [("file_bytes", pdfBytes)]).1 "metadata"
      = some (Value.dict [
          ("pages", Value.nat 1),
          ("tables", Value.nat 1),
          ("tables_data", Value.list [Value.list [
            Value.dict [("row", Value.nat 0), ("column", Value.nat 0),
              ("content", Value.str "A")],
            Value.dict [("row", Value.nat 0), ("column", Value.nat 1),
              ("content", Value.str "B")],
            Value.dict [("row", Value.nat 1), ("column", Value.nat 0),
              ("content", Value.str "C")]]]),
          ("model", Value.str "prebuilt-document")]) :=
  process_success_metadata stubSettings (stubOk oneTableResult)
    [("file_bytes", pdfBytes)]
    (ServiceCall.fromBytes pdfBytes "prebuilt-document") oneTableResult
    rfl rfl rfl

/-- C4: whenever both `file_bytes` and `file_url` are present (and the
credentials are configured so the dispatch is reached), exactly one service
call is made, the bytes one carrying the `file_bytes` payload, and no URL call
is ever performed. -/
theorem process_both_inputs_bytes_path (settings : Settings) (svc : Service)
    (input_data : List (String × Value)) (b : Value)
    (hcred : (pyTruthy settings.AZURE_FORMRECOGNIZER_ENDPOINT &&
      pyTruthy settings.AZURE_FORMRECOGNIZER_KEY) = true)
    (hb : input_data.lookup "file_bytes" = some b)
    (_hu : (input_data.lookup "file_url").isSome = true) :
    (process settings svc input_data).2
        = [ServiceCall.fromBytes b settings.PREBUILT_MODEL] ∧
      ∀ u m, ServiceCall.fromUrl u m ∉ (process settings svc input_data).2 := by
  have hcall : resolveCall settings.PREBUILT_MODEL input_data
      = some (ServiceCall.fromBytes b settings.PREBUILT_MODEL) := by
    simp [resolveCall, hb]
  have htrace : (process settings svc input_data).2
      = [ServiceCall.fromBytes b settings.PREBUILT_MODEL] := by
    cases hsvc : svc (ServiceCall.fromBytes b settings.PREBUILT_MODEL) <;>
      simp [process, hcred, hcall, hsvc]
  refine ⟨htrace, fun u m hmem => ?_⟩
  rw [htrace] at hmem
  simp at hmem

/-- C4 witness: with both `file_bytes` and `file_url` supplied, the trace is
exactly one bytes call and a URL call is not in it. -/
theorem process_both_inputs_bytes_path_witness :
    (process stubSettings (stubOk twoPageResult)
        [("file_bytes", pdfBytes),
         ("file_url", Value.str "https://example.com/doc.pdf")]).2
        = [ServiceCall.fromBytes pdfBytes "prebuilt-document"] ∧
      ServiceCall.fromUrl (Value.str "https://example.com/doc.pdf")
          "prebuilt-document"
        ∉ (process stubSettings (stubOk twoPageResult)
            [("file_bytes", pdfBytes),
             ("file_url", Value.str "https://example.com/doc.pdf")]).2 :=
  ⟨(process_both_inputs_bytes_path stubSettings (stubOk twoPageResult)
      [("file_bytes", pdfBytes),
       ("file_url", Value.str "https://example.com/doc.pdf")]
      pdfBytes rfl rfl rfl).1,
   (process_both_inputs_bytes_path stubSettings (stubOk twoPageResult)
      [("file_bytes", pdfBytes),
       ("file_url", Value.str "https://example.com/doc.pdf")]
      pdfBytes rfl rfl rfl).2
     (Value.str "https://example.com/doc.pdf") "prebuilt-document"⟩

/-- C5: with credentials configured, a request containing neither `file_bytes`
nor `file_url` yields the failure record with the non-empty "must be provided"
message and `result` set to `None`, and no service operation is invoked. -/
theorem process_no_input_error (settings : Settings) (svc : Service)
    (input_data : List (String × Value))
    (hcred : (pyTruthy settings.AZURE_FORMRECOGNIZER_ENDPOINT &&
      pyTruthy settings.AZURE_FORMRECOGNIZER_KEY) = true)
    (hb : input_data.lookup "file_bytes" = Option.none)
    (hu : input_data.lookup "file_url" = Option.none) :
    (process settings svc input_data).1
        = errorResult "Either 'file_bytes' or 'file_url' must be provided" ∧
      "Either 'file_bytes' or 'file_url' must be provided" ≠ "" ∧
      (process settings svc input_data).2 = [] := by
  have hcall : resolveCall settings.PREBUILT_MODEL input_data = Option.none := by
    simp [resolveCall, hb, hu]
  refine ⟨?_, by decide, ?_⟩ <;> simp [process, hcred, hcall]

/-- C5 witness: the empty request, under configured credentials, returns the
"must be provided" failure and the unreachable service is never called. -/
theorem process_no_input_error_witness :
    (process stubSettings unreachableService []).1
        = errorResult "Either 'file_bytes' or 'file_url' must be provided" ∧
      "Either 'file_bytes' or 'file_url' must be provided" ≠ "" ∧
      (process stubSettings unreachableService []).2 = [] :=
  process_no_input_error stubSettings unreachableService [] rfl rfl rfl

/-- C6: whenever the configured endpoint or key is missing or empty (falsy),
`process` returns the non-empty credentials failure with `result` set to
`None`, invokes no service operation, and the outcome is deterministic: it
does not depend on the service or the input at all, so repeated calls under
the same configuration return the same error. -/
theorem process_missing_credentials_error (settings : Settings)
    (hcred : (pyTruthy settings.AZURE_FORMRECOGNIZER_ENDPOINT &&
      pyTruthy settings.AZURE_FORMRECOGNIZER_KEY) = false) :
    (∀ (svc : Service) (input_data : List (String × Value)),
        (process settings svc input_data).1
            = errorResult "Azure Form Recognizer credentials not configured" ∧
          "Azure Form Recognizer credentials not configured" ≠ "" ∧
          (process settings svc input_data).2 = []) ∧
      ∀ (svc1 svc2 : Service) (input1 input2 : List (String × Value)),
        process settings svc1 input1 = process settings svc2 input2 := by
  refine ⟨fun svc input_data => ⟨?_, by decide, ?_⟩, fun svc1 svc2 i1 i2 => ?_⟩ <;>
    simp [process, hcred]

/-- C6 witness: with an empty endpoint and an unset key, two calls with
different services and inputs return the same credentials failure with an
empty trace. -/
theorem process_missing_credentials_error_witness :
    ((process emptySettings unreachableService []).1
        = errorResult "Azure Form Recognizer credentials not configured" ∧
      "Azure Form Recognizer credentials not configured" ≠ "" ∧
      (process emptySettings unreachableService []).2 = []) ∧
    process emptySettings unreachableService []
      = process emptySettings (stubOk twoPageResult)
          [("file_bytes", pdfBytes)] :=
  ⟨(process_missing_credentials_error emptySettings rfl).1 unreachableService [],
   (process_missing_credentials_error emptySettings rfl).2 unreachableService
     (stubOk twoPageResult) [] [("file_bytes", pdfBytes)]⟩

/-- C7 counterexample: with credentials missing AND no input provided, the
returned failure is the credentials one, not the Input Resolver's "no input
provided" failure — the credential check of the Invoker's preconditions runs
before input resolution, so the resolver's error is not the one returned. -/
theorem credentials_error_shadows_resolver_counterexample :
    (process emptySettings unreachableService []).1
        = errorResult "Azure Form Recognizer credentials not configured" ∧
      (process emptySettings unreachableService []).1
        ≠ errorResult "Either 'file_bytes' or 'file_url' must be provided" := by
  refine ⟨rfl, fun h => ?_⟩
  rw [show (process emptySettings unreachableService []).1
      = errorResult "Azure Form Recognizer credentials not configured" from rfl]
    at h
  simp [errorResult] at h

/-- C7 (amended): the credential check precedes input resolution. With
credentials configured, a request providing neither `file_bytes` nor
`file_url` returns the resolver's "no input provided" failure and the service
is never invoked; with credentials missing or empty, the credentials failure
is returned instead, and in either case the rest of the pipeline is
short-circuited (empty call trace). -/
theorem credential_check_precedes_resolver (settings : Settings)
    (svc : Service) (input_data : List (String × Value))
    (hb : input_data.lookup "file_bytes" = Option.none)
    (hu : input_data.lookup "file_url" = Option.none) :
    ((pyTruthy settings.AZURE_FORMRECOGNIZER_ENDPOINT &&
        pyTruthy settings.AZURE_FORMRECOGNIZER_KEY) = true →
      (process settings svc input_data).1
        = errorResult "Either 'file_bytes' or 'file_url' must be provided") ∧
    ((pyTruthy settings.AZURE_FORMRECOGNIZER_ENDPOINT &&
        pyTruthy settings.AZURE_FORMRECOGNIZER_KEY) = false →
      (process settings svc input_data).1
        = errorResult "Azure Form Recognizer credentials not configured") ∧
    (process settings svc input_data).2 = [] := by
  have hcall : resolveCall settings.PREBUILT_MODEL input_data = Option.none := by
    simp [resolveCall, hb, hu]
  refine ⟨fun hcred => ?_, fun hcred => ?_, ?_⟩
  · simp [process, hcred, hcall]
  · simp [process, hcred]
  · cases hcred : (pyTruthy settings.AZURE_FORMRECOGNIZER_ENDPOINT &&
        pyTruthy settings.AZURE_FORMRECOGNIZER_KEY) <;>
      simp [process, hcred, hcall]

/-- C7 witness: on the empty request, with credentials configured the "no
input provided" failure is returned, and with missing credentials the
credentials failure is returned; the trace is empty. -/
theorem credential_check_precedes_resolver_witness :
    ((process stubSettings unreachableService []).1
        = errorResult "Either 'file_bytes' or 'file_url' must be provided") ∧
    ((process emptySettings unreachableService []).1
        = errorResult "Azure Form Recognizer credentials not configured") ∧
    (process stubSettings unreachableService []).2 = [] :=
  ⟨(credential_check_precedes_resolver stubSettings unreachableService []
      rfl rfl).1 rfl,
   (credential_check_precedes_resolver emptySettings unreachableService []
      rfl rfl).2.1 rfl,
   (credential_check_precedes_resolver stubSettings unreachableService []
      rfl rfl).2.2⟩

/-- C8: whenever the remote service raises an exception with message `m`
during the call, the returned failure record is exactly
`{error: m, result: None}` — the original message is preserved as text. -/
theorem process_error_message_preserved (settings : Settings) (svc : Service)
    (input_data : List (String × Value)) (call : ServiceCall) (m : String)
    (hcred : (pyTruthy settings.AZURE_FORMRECOGNIZER_ENDPOINT &&
      pyTruthy settings.AZURE_FORMRECOGNIZER_KEY) = true)
    (hcall : resolveCall settings.PREBUILT_MODEL input_data = some call)
    (hsvc : svc call = Except.error m) :
    (process settings svc input_data).1 = errorResult m := by
  simp [process, hcred, hcall, hsvc]

/-- C8 witness: a stub service raising "Service request failed (503)"
mid-call yields exactly that message in the failure record. -/
theorem process_error_message_preserved_witness :
    (process stubSettings (stubFail "Service request failed (503)")
        [("file_bytes", pdfBytes)]).1
      = errorResult "Service request failed (503)" :=
  process_error_message_preserved stubSettings
    (stubFail "Service request failed (503)") [("file_bytes", pdfBytes)]
    (ServiceCall.fromBytes pdfBytes "prebuilt-document")
    "Service request failed (503)" rfl rfl rfl

/-- C9: the three schema/metadata probes are pure and deterministic — any two
calls return equal values (they are functions of no state) — and the declared
input schema names `file_bytes` in its `required` list while also advertising
`file_url` among its properties. -/
theorem schema_probes_pure_and_input_schema :
    (∀ a b : Unit, get_input_schema a = get_input_schema b) ∧
    (∀ a b : Unit, get_output_schema a = get_output_schema b) ∧
    (∀ a b : Unit, get_metadata a = get_metadata b) ∧
    dictGet (get_input_schema ()) "required"
      = some (Value.list [Value.str "file_bytes"]) ∧
    ∃ props, dictGet (get_input_schema ()) "properties" = some props ∧
      (dictGet props "file_url").isSome = true :=
  ⟨fun _ _ => rfl, fun _ _ => rfl, fun _ _ => rfl, rfl, ⟨_, rfl, rfl⟩⟩

/-- C10: dispatch is decided by key presence, not value truthiness — whenever
the request contains the key `file_bytes`, with any value whatsoever
(including `None` or an empty payload), the single service call made is the
bytes one carrying that value, no URL call is ever performed even when a
`file_url` is also present, and any failure of that call surfaces with the
service's own message, not an input-validation message. -/
theorem process_dispatch_by_key_presence (settings : Settings) (svc : Service)
    (input_data : List (String × Value)) (v : Value)
    (hcred : (pyTruthy settings.AZURE_FORMRECOGNIZER_ENDPOINT &&
      pyTruthy settings.AZURE_FORMRECOGNIZER_KEY) = true)
    (hb : input_data.lookup "file_bytes" = some v) :
    (process settings svc input_data).2
        = [ServiceCall.fromBytes v settings.PREBUILT_MODEL] ∧
      (∀ u m, ServiceCall.fromUrl u m ∉ (process settings svc input_data).2) ∧
      ∀ msg, svc (ServiceCall.fromBytes v settings.PREBUILT_MODEL)
          = Except.error msg →
        (process settings svc input_data).1 = errorResult msg := by
  have hcall : resolveCall settings.PREBUILT_MODEL input_data
      = some (ServiceCall.fromBytes v settings.PREBUILT_MODEL) := by
    simp [resolveCall, hb]
  have htrace : (process settings svc input_data).2
      = [ServiceCall.fromBytes v settings.PREBUILT_MODEL] := by
    cases hsvc : svc (ServiceCall.fromBytes v settings.PREBUILT_MODEL) <;>
      simp [process, hcred, hcall, hsvc]
  refine ⟨htrace, fun u m hmem => ?_, fun msg hsvc => ?_⟩
  · rw [htrace] at hmem
    simp at hmem
  · simp [process, hcred, hcall, hsvc]

/-- C10 witness: a request holding `file_bytes: None` next to a valid
`file_url` still takes the bytes path — the one call made is the bytes call
with payload `None`, the URL call is absent from the trace, and the failure
returned is the service's own message for that bytes attempt. -/
theorem process_dispatch_by_key_presence_witness :
    (process stubSettings (stubFail "InvalidRequest: empty document")
        [("file_bytes", Value.none),
         ("file_url", Value.str "https://example.com/doc.pdf")]).2
        = [ServiceCall.fromBytes Value.none "prebuilt-document"] ∧
      ServiceCall.fromUrl (Value.str "https://example.com/doc.pdf")
          "prebuilt-document"
        ∉ (process stubSettings (stubFail "InvalidRequest: empty document")
            [("file_bytes", Value.none),
             ("file_url", Value.str "https://example.com/doc.pdf")]).2 ∧
      (process stubSettings (stubFail "InvalidRequest: empty document")
          [("file_bytes", Value.none),
           ("file_url", Value.str "https://example.com/doc.pdf")]).1
        = errorResult "InvalidRequest: empty document" :=
  ⟨(process_dispatch_by_key_presence stubSettings
      (stubFail "InvalidRequest: empty document")
      [("file_bytes", Value.none),
       ("file_url", Value.str "https://example.com/doc.pdf")]
      Value.none rfl rfl).1,
   (process_dispatch_by_key_presence stubSettings
      (stubFail "InvalidRequest: empty document")
      [("file_bytes", Value.none),
       ("file_url", Value.str "https://example.com/doc.pdf")]
      Value.none rfl rfl).2.1
     (Value.str "https://example.com/doc.pdf") "prebuilt-document",
   (process_dispatch_by_key_presence stubSettings
      (stubFail "InvalidRequest: empty document")
      [("file_bytes", Value.none),
       ("file_url", Value.str "https://example.com/doc.pdf")]
      Value.none rfl rfl).2.2 "InvalidRequest: empty document" rfl⟩
